import Mathlib

/-!
Verification development for the Remote Deployment Orchestrator of the
ServiceDeploymentManager repository.

The Python sources are shallowly embedded as executable Lean definitions.
Strings are modelled as Lean `String`s over ASCII text: Python's
`str.isalnum`/`str.lower` are Unicode-aware, the embedding uses their ASCII
fragment, which agrees with CPython on every ASCII input.  Machine integers
are modelled as `Nat` with explicit `% 2 ^ w` reductions where the source
wraps.
-/

namespace SDM

/-- Python truthiness of an optional string: `None` and `""` are falsy. -/
def pyTruthy : Option String → Bool
  | none => false
  | some s => s ≠ ""

/-- Substring test on character lists: does the second list contain `pat`
contiguously?  Mirrors Python's `pat in hay`. -/
def listContainsSub (pat : List Char) : List Char → Bool
  | [] => pat.isEmpty
  | c :: rest => (pat.isPrefixOf (c :: rest)) || listContainsSub pat rest

/-- Substring test on strings, mirroring Python's `pat in s`. -/
def strContainsSub (s pat : String) : Bool :=
  listContainsSub pat.toList s.toList

/-- Does the string start with the given pattern?  Mirrors `str.startswith`. -/
def strStartsWith (s pat : String) : Bool :=
  pat.toList.isPrefixOf s.toList

/-- Split a character list at every occurrence of `sep`, mirroring
Python's `str.split(sep)` for a one-character separator. -/
def splitOnChar (sep : Char) : List Char → List (List Char)
  | [] => [[]]
  | c :: rest =>
    let tail := splitOnChar sep rest
    if c = sep then [] :: tail
    else
      match tail with
      | [] => [[c]]
      | h :: t => (c :: h) :: t

/-- ASCII fragment of Python's `str.isalnum` (true on `A`-`Z`, `a`-`z`,
`0`-`9`). -/
def pyIsAlnum (c : Char) : Bool :=
  (65 ≤ c.toNat && c.toNat ≤ 90) || (97 ≤ c.toNat && c.toNat ≤ 122) ||
    (48 ≤ c.toNat && c.toNat ≤ 57)

/-- ASCII fragment of Python's `str.lower` on a single character. -/
def pyLowerChar (c : Char) : Char :=
  if 65 ≤ c.toNat && c.toNat ≤ 90 then Char.ofNat (c.toNat + 32) else c

/-- Python `str.lower` on ASCII text. -/
def pyLower (s : String) : String :=
  (s.toList.map pyLowerChar).asString

/-! ## Identity deriver (`app/docker/helper_functions.py`, `SpotVMManager.get_user_vm_name`) -/

/-- Embedding of `helper_functions.extract_user_id` —
remove every dot, then keep the prefix before the first `@`. -/
def extract_user_id (user_id : String) : String :=
  ((user_id.toList.filter (fun c => c ≠ '.')).takeWhile (fun c => c ≠ '@')).asString

/-- Embedding of `helper_functions.generate_project_name_from_user_workspace`:
`workspace_name.lower().replace(' ', '-')` followed by `-` and the extracted
user id (the user id is neither lower-cased, sanitized nor truncated). -/
def generate_project_name_from_user_workspace (username workspace_name : String) : String :=
  let sanitized_workspace :=
    ((pyLower workspace_name).toList.map (fun c => if c = ' ' then '-' else c)).asString
  sanitized_workspace ++ "-" ++ extract_user_id username

/-- Embedding of `helper_functions.generate_context_name_from_user_workspace`:
`ws-` + alphanumeric characters of the extracted user id + `-` +
alphanumeric characters of the workspace name (case preserved, no length cap). -/
def generate_context_name_from_user_workspace (username workspace_name : String) : String :=
  let extracted := extract_user_id username
  let sanitized_user_id := (extracted.toList.filter pyIsAlnum).asString
  let sanitized_workspace_name := (workspace_name.toList.filter pyIsAlnum).asString
  "ws-" ++ sanitized_user_id ++ "-" ++ sanitized_workspace_name

/-- The cleaning step of `SpotVMManager.get_user_vm_name`:
`''.join(c for c in s if c.isalnum() or c == '-').lower()`. -/
def cleanPart (s : String) : String :=
  ((s.toList.filter (fun c => pyIsAlnum c || c = '-')).map pyLowerChar).asString

/-- Python string slicing `s[:64]`. -/
def pyTake64 (s : String) : String :=
  (s.toList.take 64).asString

/-- Embedding of `SpotVMManager.get_user_vm_name(user_id, workspace_id, use_workspace)`:
keep `[alnum-]` characters, lower-case, and truncate the result to 64
characters; the workspace is appended only when `workspace_id` is truthy
AND `use_workspace` is set (its default is `False`). -/
def get_user_vm_name (user_id : String) (workspace_id : Option String)
    (use_workspace : Bool) : String :=
  if pyTruthy workspace_id && use_workspace then
    pyTake64 ("vm-" ++ cleanPart user_id ++ "-" ++ cleanPart (workspace_id.getD ""))
  else
    pyTake64 ("vm-" ++ cleanPart user_id)

/-- The VM name used by `SpotVMManager.allocate_or_reuse_vm` (line 83):
`get_user_vm_name(user_id, workspace_id)` with `use_workspace` left at its
default `False`. -/
def allocVmNameUsed (user_id : String) (workspace_id : Option String) : String :=
  get_user_vm_name user_id workspace_id false

/-! ## MD5 (as used by `SpotVMCreator._generate_static_ip` via `hashlib.md5`) -/

/-- UTF-8 encoding of one character (Python `str.encode()`), as byte values. -/
def utf8Bytes (c : Char) : List Nat :=
  let n := c.toNat
  if n < 128 then [n]
  else if n < 2048 then [192 + n / 64, 128 + n % 64]
  else if n < 65536 then [224 + n / 4096, 128 + (n / 64) % 64, 128 + n % 64]
  else [240 + n / 262144, 128 + (n / 4096) % 64, 128 + (n / 64) % 64, 128 + n % 64]

/-- UTF-8 encoding of a string (Python `str.encode()`). -/
def strUtf8 (s : String) : List Nat :=
  (s.toList.map utf8Bytes).flatten

/-- 32-bit truncation. -/
def w32 (n : Nat) : Nat := n % 4294967296

/-- 32-bit left rotation (operand assumed below `2 ^ 32`). -/
def rotl32 (x s : Nat) : Nat :=
  (x * 2 ^ s + x / 2 ^ (32 - s)) % 4294967296

/-- 32-bit complement (operand assumed below `2 ^ 32`). -/
def not32 (x : Nat) : Nat := 4294967295 - x

/-- The 64 per-round shift amounts of MD5. -/
def md5Shifts : List Nat :=
  [7, 12, 17, 22, 7, 12, 17, 22, 7, 12, 17, 22, 7, 12, 17, 22,
   5, 9, 14, 20, 5, 9, 14, 20, 5, 9, 14, 20, 5, 9, 14, 20,
   4, 11, 16, 23, 4, 11, 16, 23, 4, 11, 16, 23, 4, 11, 16, 23,
   6, 10, 15, 21, 6, 10, 15, 21, 6, 10, 15, 21, 6, 10, 15, 21]

/-- The 64 sine-derived constants of MD5. -/
def md5K : List Nat :=
  [0xd76aa478, 0xe8c7b756, 0x242070db, 0xc1bdceee,
   0xf57c0faf, 0x4787c62a, 0xa8304613, 0xfd469501,
   0x698098d8, 0x8b44f7af, 0xffff5bb1, 0x895cd7be,
   0x6b901122, 0xfd987193, 0xa679438e, 0x49b40821,
   0xf61e2562, 0xc040b340, 0x265e5a51, 0xe9b6c7aa,
   0xd62f105d, 0x02441453, 0xd8a1e681, 0xe7d3fbc8,
   0x21e1cde6, 0xc33707d6, 0xf4d50d87, 0x455a14ed,
   0xa9e3e905, 0xfcefa3f8, 0x676f02d9, 0x8d2a4c8a,
   0xfffa3942, 0x8771f681, 0x6d9d6122, 0xfde5380c,
   0xa4beea44, 0x4bdecfa9, 0xf6bb4b60, 0xbebfbc70,
   0x289b7ec6, 0xeaa127fa, 0xd4ef3085, 0x04881d05,
   0xd9d4d039, 0xe6db99e5, 0x1fa27cf8, 0xc4ac5665,
   0xf4292244, 0x432aff97, 0xab9423a7, 0xfc93a039,
   0x655b59c3, 0x8f0ccc92, 0xffeff47d, 0x85845dd1,
   0x6fa87e4f, 0xfe2ce6e0, 0xa3014314, 0x4e0811a1,
   0xf7537e82, 0xbd3af235, 0x2ad7d2bb, 0xeb86d391]

/-- MD5 message padding: append `0x80`, zero bytes up to 56 mod 64, then the
original bit length as 8 little-endian bytes. -/
def md5Pad (msg : List Nat) : List Nat :=
  let len := msg.length
  let zeros := (120 - (len + 1) % 64) % 64
  msg ++ [128] ++ List.replicate zeros 0 ++
    ((List.range 8).map (fun i => len * 8 / 2 ^ (8 * i) % 256))

/-- Decode a 64-byte chunk into 16 little-endian 32-bit words. -/
def md5Words (chunk : List Nat) : List Nat :=
  (List.range 16).map (fun j =>
    chunk.getD (4 * j) 0 + chunk.getD (4 * j + 1) 0 * 256 +
    chunk.getD (4 * j + 2) 0 * 65536 + chunk.getD (4 * j + 3) 0 * 16777216)

/-- One MD5 round: the nonlinear function and message index for round `i`. -/
def md5FG (b c d i : Nat) : Nat × Nat :=
  if i < 16 then ((b &&& c) ||| (not32 b &&& d), i)
  else if i < 32 then ((d &&& b) ||| (not32 d &&& c), (5 * i + 1) % 16)
  else if i < 48 then (b ^^^ c ^^^ d, (3 * i + 5) % 16)
  else (c ^^^ (b ||| not32 d), (7 * i) % 16)

/-- The 64 rounds of MD5 on one chunk's words, from state `(a, b, c, d)`. -/
def md5Rounds (m : List Nat) (st : Nat × Nat × Nat × Nat) : Nat × Nat × Nat × Nat :=
  (List.range 64).foldl
    (fun st i =>
      let a := st.1
      let b := st.2.1
      let c := st.2.2.1
      let d := st.2.2.2
      let fg := md5FG b c d i
      let rot := rotl32 (w32 (a + fg.1 + md5K.getD i 0 + m.getD fg.2 0)) (md5Shifts.getD i 0)
      (d, w32 (b + rot), b, c))
    st

/-- Process one 64-byte chunk: run the rounds and add the result into the state. -/
def md5Chunk (st : Nat × Nat × Nat × Nat) (chunk : List Nat) : Nat × Nat × Nat × Nat :=
  let r := md5Rounds (md5Words chunk) st
  (w32 (st.1 + r.1), w32 (st.2.1 + r.2.1), w32 (st.2.2.1 + r.2.2.1), w32 (st.2.2.2 + r.2.2.2))

/-- Split a list into 64-element chunks (`fuel` bounds the recursion). -/
def chunks64 : Nat → List Nat → List (List Nat)
  | 0, _ => []
  | _, [] => []
  | fuel + 1, l => l.take 64 :: chunks64 fuel (l.drop 64)

/-- Little-endian bytes of a 32-bit word. -/
def leBytes32 (x : Nat) : List Nat :=
  [x % 256, x / 256 % 256, x / 65536 % 256, x / 16777216 % 256]

/-- The 16 digest bytes of MD5 for a byte-list message. -/
def md5Digest (msg : List Nat) : List Nat :=
  let padded := md5Pad msg
  let final := (chunks64 (padded.length) padded).foldl md5Chunk
    (0x67452301, 0xefcdab89, 0x98badcfe, 0x10325476)
  leBytes32 final.1 ++ leBytes32 final.2.1 ++ leBytes32 final.2.2.1 ++ leBytes32 final.2.2.2

/-- Lower-case hex character of a value below 16. -/
def hexDigitChar (n : Nat) : Char :=
  if n < 10 then Char.ofNat (48 + n) else Char.ofNat (87 + n)

/-- Two lower-case hex characters of a byte. -/
def byteHex (b : Nat) : List Char :=
  [hexDigitChar (b / 16), hexDigitChar (b % 16)]

/-- Embedding of `hashlib.md5(s.encode()).hexdigest()`: the 32-character lower-case hex digest. -/
def md5Hexdigest (s : String) : String :=
  (((md5Digest (strUtf8 s)).map byteHex).flatten).asString

/-- Value of a lower-case hex character. -/
def hexVal (c : Char) : Nat :=
  if c.toNat ≤ 57 then c.toNat - 48 else c.toNat - 87

/-- Embedding of `int(h, 16)` for a lower-case hex string. -/
def parseHex (h : List Char) : Nat :=
  h.foldl (fun acc c => 16 * acc + hexVal c) 0

/-! ## Subnet arithmetic (`ipaddress.IPv4Network`, as used by `_generate_static_ip`) -/

/-- Parse one decimal octet (0-255, no leading zeros), as `ipaddress` does. -/
def parseOctet (l : List Char) : Option Nat :=
  if l.isEmpty then none
  else if !(l.all (fun c => 48 ≤ c.toNat && c.toNat ≤ 57)) then none
  else if l.length > 1 && l.headD '0' = '0' then none
  else
    let v := l.foldl (fun acc c => 10 * acc + (c.toNat - 48)) 0
    if v ≤ 255 then some v else none

/-- Parse a dotted-quad IPv4 address into its 32-bit value. -/
def parseIPv4 (l : List Char) : Option Nat :=
  match (splitOnChar '.' l).mapM parseOctet with
  | some [a, b, c, d] => some (a * 16777216 + b * 65536 + c * 256 + d)
  | _ => none

/-- Parse a prefix length (decimal, 0-32). -/
def parsePrefixLen (l : List Char) : Option Nat :=
  if l.isEmpty then none
  else if !(l.all (fun c => 48 ≤ c.toNat && c.toNat ≤ 57)) then none
  else
    let v := l.foldl (fun acc c => 10 * acc + (c.toNat - 48)) 0
    if v ≤ 32 then some v else none

/-- Embedding of `ipaddress.IPv4Network(cidr, strict=False)`: the network address (host
bits cleared) and the prefix length.  A bare address gets prefix 32. -/
def parseIPv4Network (cidr : String) : Option (Nat × Nat) :=
  match splitOnChar '/' cidr.toList with
  | [addr] =>
    match parseIPv4 addr with
    | some a => some (a, 32)
    | none => none
  | [addr, pfx] =>
    match parseIPv4 addr, parsePrefixLen pfx with
    | some a, some p => some (a / 2 ^ (32 - p) * 2 ^ (32 - p), p)
    | _, _ => none
  | _ => none

/-- Embedding of `network.hosts()`: every address except network and broadcast for
prefixes up to /30; both addresses for /31; the single address for /32. -/
def hostsList (net p : Nat) : List Nat :=
  if p ≤ 30 then (List.range (2 ^ (32 - p) - 2)).map (fun i => net + 1 + i)
  else if p = 31 then [net, net + 1]
  else [net]

/-- Dotted-quad rendering of a 32-bit address (`str(ip)`). -/
def ipToString (n : Nat) : String :=
  toString (n / 16777216 % 256) ++ "." ++ toString (n / 65536 % 256) ++ "." ++
    toString (n / 256 % 256) ++ "." ++ toString (n % 256)

/-- Embedding of `int(hashlib.md5(name.encode()).hexdigest()[:k], 16)`. -/
def md5HashIntOfPrefixLen (name : String) (k : Nat) : Nat :=
  parseHex ((md5Hexdigest name).toList.take k)

/-- The `except` fallback of `_generate_static_ip`: first 4 hex chars of the
MD5 digest, mapped into `10.0.0.100`-`10.0.0.254`. -/
def fallbackStaticIp (vm_name : String) : String :=
  "10.0.0." ++ toString (100 + md5HashIntOfPrefixLen vm_name 4 % 155)

/-- Embedding of `SpotVMCreator._generate_static_ip(vm_name, subnet)`: parse the subnet
CIDR, drop the first 10 usable host addresses, and index into the remainder
by the first 8 hex chars of the MD5 of the VM name, modulo the remainder's
length.  Parse failure and the `ZeroDivisionError` of an empty remainder are
caught and answered by the fixed-subnet fallback. -/
def generate_static_ip (vm_name : String) (cidr : String) : String :=
  match parseIPv4Network cidr with
  | none => fallbackStaticIp vm_name
  | some (net, p) =>
    let available_ips := (hostsList net p).drop 10
    if available_ips.length = 0 then fallbackStaticIp vm_name
    else
      let hash_int := md5HashIntOfPrefixLen vm_name 8
      let ip_index := hash_int % available_ips.length
      ipToString (available_ips.getD ip_index 0)

/-! ## Router config generator (`TraefikTomlGenerator.generate_toml`) -/

/-- One router of the generated Traefik config. -/
structure TraefikRouter where
  rule : String
  service : String
  entryPoints : List String
  middlewares : List String
  tlsCertResolver : String
  deriving DecidableEq

/-- One backend of the generated Traefik config (its load-balancer URL). -/
structure TraefikServiceEntry where
  serverUrl : String
  deriving DecidableEq

/-- The routing entries for one service's port list: index runs from 1, the
suffix is the index when the service has more than one port and empty
otherwise.  Returns (routers, services, urls) in port-list order. -/
def traefikPortEntries (service_name base_url private_ip service : String)
    (multiport : Bool) :
    Nat → List Nat →
      List (String × TraefikRouter) × List (String × TraefikServiceEntry) × List String
  | _, [] => ([], [], [])
  | index, port :: rest =>
    let suffix := if multiport then toString index else ""
    let router_name := service_name ++ "-" ++ service ++ suffix
    let service_entry_name := service_name ++ "-" ++ service ++ suffix
    let url := service_entry_name ++ "." ++ base_url
    let router : TraefikRouter :=
      { rule := "Host(`" ++ url ++ "`)"
        service := service_entry_name
        entryPoints := ["websecure"]
        middlewares := ["sslheader"]
        tlsCertResolver := "letsencrypt" }
    let entry : TraefikServiceEntry :=
      { serverUrl := "http://" ++ private_ip ++ ":" ++ toString port }
    let tail := traefikPortEntries service_name base_url private_ip service multiport
      (index + 1) rest
    ((router_name, router) :: tail.1, (service_entry_name, entry) :: tail.2.1,
      url :: tail.2.2)

/-- Embedding of `TraefikTomlGenerator.generate_toml(service_name, private_ip, service_ports)`
restricted to its pure content: the `http.routers` entries, the
`http.services` entries and the collected `final_urls`, in dict insertion
order (the file write is outside the model). -/
def generate_toml (service_name private_ip base_url : String)
    (service_ports : List (String × List Nat)) :
    List (String × TraefikRouter) × List (String × TraefikServiceEntry) × List String :=
  match service_ports with
  | [] => ([], [], [])
  | (service, ports) :: rest =>
    let multiport := ports.length > 1
    let this := traefikPortEntries service_name base_url private_ip service multiport 1 ports
    let tail := generate_toml service_name private_ip base_url rest
    (this.1 ++ tail.1, this.2.1 ++ tail.2.1, this.2.2 ++ tail.2.2)

/-! ## Deployment pipeline (`DockerComposeRemoteVMUtils`) -/

/-- Embedding of `CommandResult` as produced by the docker command handler; `deploy_info`
is modelled structurally as the (container_name, urls) pair that
`set_deploy_info` serializes. -/
structure CommandResult where
  success : Bool
  output : Option String := none
  error : Option String := none
  deploy_info : Option (String × List String) := none
  deriving DecidableEq

/-- Embedding of `DockerComposeRemoteVMUtils.generate_deploy_command(compose_file,
project_name, env_file_arg, context_name)`: the `docker compose ... up -d
--build` command string (the source appends `--build` even though its own
comment says the flag can be skipped because the build already ran). -/
def generate_deploy_command (compose_file project_name : String)
    (env_file_arg : String) (context_name : Option String) : String :=
  let parts : List String :=
    ["docker"] ++
    (match context_name with
     | some c => if c ≠ "" then ["--context", c] else []
     | none => []) ++
    ["compose", "-f", compose_file, "-p", project_name] ++
    (if env_file_arg ≠ "" then [env_file_arg] else []) ++
    ["up", "-d", "--build"]
  String.intercalate " " parts

/-- Embedding of `enable_fluentd_logging(compose_file_path, username, workspace)`:
propagates an exception of `FluentdEnabler.add_fluentd_to_compose` and raises
`RuntimeError("Failed to enable Fluentd logging")` when it answers falsy. -/
def enable_fluentd_logging (add_fluentd_outcome : Except String Bool) : Except String Unit :=
  match add_fluentd_outcome with
  | .error e => .error e
  | .ok false => .error "Failed to enable Fluentd logging"
  | .ok true => .ok ()

/-- The environment of one `run_docker_compose_deploy` invocation: the
outcomes of the collaborator calls it makes, in source order. -/
structure DeployEnv where
  cleanupOutcome : Except String CommandResult
  systemCleanupOutcome : Except String CommandResult
  servicePortsOutcome : Except String (List (String × List Nat))
  composeFileOutcome : Except String String
  addFluentdOutcome : Except String Bool
  runOutcome : CommandResult

/-- Embedding of `DockerComposeRemoteVMUtils.run_docker_compose_deploy`: the two cleanup
stages are try/except-swallowed; port resolution, compose-file lookup and
fluentd injection run inside the fatal `try` — any exception of theirs lands
in the `except` branch, which returns `success=False` without running the
deploy command or the Traefik generation.  Result components: the returned
`CommandResult`, whether the deploy (`up`) command ran, and whether the
Traefik config was generated. -/
def run_docker_compose_deploy (env : DeployEnv)
    (context_name project_name env_file_arg private_ip base_url : String) :
    CommandResult × Bool × Bool :=
  match env.servicePortsOutcome with
  | .error e => ({ success := false, error := some e }, false, false)
  | .ok services_ports =>
    match env.composeFileOutcome with
    | .error e => ({ success := false, error := some e }, false, false)
    | .ok compose_file_path =>
      match enable_fluentd_logging env.addFluentdOutcome with
      | .error e => ({ success := false, error := some e }, false, false)
      | .ok _ =>
        let _deploy_command :=
          generate_deploy_command compose_file_path project_name env_file_arg
            (some context_name)
        let run_result := env.runOutcome
        if run_result.success then
          let gen := generate_toml project_name private_ip base_url services_ports
          ({ run_result with deploy_info := some (project_name, gen.2.2) }, true, true)
        else
          (run_result, true, false)

/-! ## VM provisioner inspection (`SpotVMCreator.get_vm_status` / `get_vm_details`) -/

/-- Outcome of one Azure SDK call: success, `ResourceNotFoundError`, or any
other (transient) exception. -/
inductive AzureOutcome (α : Type) where
  | ok (a : α)
  | notFound
  | apiError (msg : String)
  deriving DecidableEq

/-- The instance view of a VM: its status codes. -/
structure AzureVmView where
  statuses : List String
  deriving DecidableEq

/-- The first status code starting with `PowerState/`, with the part after
the last `/` extracted (`status.code.split('/')[-1]`). -/
def firstPowerState : List String → Option String
  | [] => none
  | code :: rest =>
    if strStartsWith code "PowerState/" then
      some ((splitOnChar '/' code.toList).getLastD []).asString
    else firstPowerState rest

/-- Embedding of `SpotVMCreator.get_vm_status(vm_name)`: scan the instance view for the
power state; `ResourceNotFoundError` is answered by `None`, and any other
exception is logged and also answered by `None`. -/
def get_vm_status (instance_view : AzureOutcome AzureVmView) : Option String :=
  match instance_view with
  | .ok view => firstPowerState view.statuses
  | .notFound => none
  | .apiError _ => none

/-- The fields read off the Azure VM object by `get_vm_details`. -/
structure AzureVmRec where
  vm_id : String
  location : String
  vm_size : String
  priority : String
  deriving DecidableEq

/-- Embedding of `SpotVMCreator.get_vm_details(vm_name)`: build the details dict from the
VM object, the NIC lookup and the status probe; `ResourceNotFoundError` and
any other exception are both answered by `None` (the `created_at` wall-clock
field is outside the model).  Dict values are optional strings because the
`status` entry may be `None`. -/
def get_vm_details (vm_get : AzureOutcome AzureVmRec) (nic_get : AzureOutcome String)
    (instance_view : AzureOutcome AzureVmView)
    (vm_name resource_group vnet_name subnet_name nic_id : String) :
    Option (List (String × Option String)) :=
  match vm_get with
  | .notFound => none
  | .apiError _ => none
  | .ok vm =>
    match nic_get with
    | .notFound => none
    | .apiError _ => none
    | .ok private_ip =>
      some [("vm_name", some vm_name), ("vm_id", some vm.vm_id),
            ("resource_group", some resource_group), ("location", some vm.location),
            ("vm_size", some vm.vm_size), ("private_ip", some private_ip),
            ("nic_id", some nic_id), ("vnet_name", some vnet_name),
            ("subnet_name", some subnet_name),
            ("status", get_vm_status instance_view), ("priority", some vm.priority)]

/-! ## Readiness probe (`SpotVMManager.is_vm_docker_ready`) -/

/-- The collaborator answers observed by one `is_vm_docker_ready` call:
whether `vm_exists` holds, the instance view behind `is_vm_running`, and the
per-command output of the out-of-band command runner. -/
structure VmProbeEnv where
  vm_exists : Bool
  instance_view : AzureOutcome AzureVmView
  run_command_output : String → Option String

/-- Modelled from the spec: `SpotVMCreator.run_vm_command` is absent from
the source snapshot (only its callers in `SpotVMManager.is_vm_docker_ready`
appear); per §4.2 it executes a command on the VM through the cloud
provider's out-of-band command API and returns the captured output, or
nothing on failure.  It is modelled as the `run_command_output` oracle. -/
def run_vm_command (env : VmProbeEnv) (command : String) : Option String :=
  env.run_command_output command

/-- Embedding of `SpotVMManager.is_vm_running(vm_name)`: the status probe answers
`'running'` (exceptions are logged and answered by `False`). -/
def is_vm_running (instance_view : AzureOutcome AzureVmView) : Bool :=
  get_vm_status instance_view == some "running"

/-- Embedding of `SpotVMManager.is_vm_docker_ready(user_id, workspace_id)`: answers `False` unless
the VM exists and is running; then `False` unless `cloud-init status` answers
truthy output containing `status: done`; then `True` exactly when
`docker --version` answers truthy output containing `Docker version`. -/
def is_vm_docker_ready (env : VmProbeEnv) : Bool :=
  if !env.vm_exists then false
  else if !is_vm_running env.instance_view then false
  else
    let cloud_init_status := run_vm_command env "cloud-init status"
    if !pyTruthy cloud_init_status
        || !strContainsSub (cloud_init_status.getD "") "status: done" then false
    else
      let docker_version := run_vm_command env "docker --version"
      if pyTruthy docker_version
          && strContainsSub (docker_version.getD "") "Docker version" then true
      else false

/-! ## Allocate-or-reuse (`SpotVMManager.allocate_or_reuse_vm`) -/

/-- Modelled from the spec: `app/models/results/vm_operation_results.py` is
absent from the source snapshot (only its importers appear); per §4.3 the
allocation result carries the private ip, the VM name and the status. -/
structure VMInfoResult where
  ip : String
  vm_name : String
  vm_status : String
  deriving DecidableEq

/-- The calls `allocate_or_reuse_vm` makes on its collaborators. -/
inductive MgrCall where
  | getDetails
  | getStatus
  | updateWorkspace
  | dockerCleanup
  | startVm
  | deleteVm
  | createVm
  deriving DecidableEq

/-- The provisioning calls: VM create, start and delete. -/
def isProvisioningCall : MgrCall → Bool
  | .startVm => true
  | .deleteVm => true
  | .createVm => true
  | _ => false

/-- Python attribute access on a dict: dict keys are not attributes, so
`existing_vm.private_ip` on the dict literal returned by
`SpotVMCreator.get_vm_details` raises `AttributeError`. -/
def pyDictAttr (_d : List (String × String)) (attr : String) : Except String String :=
  .error ("AttributeError: dict object has no attribute " ++ attr)

/-- Python `await` applied to the `bool` returned by the synchronous
`SpotVMCreator.update_workspace_table` (a plain `def`): the call itself runs,
then the `await` raises `TypeError` in CPython. -/
def awaitUpdateWorkspaceTable : Except String Unit :=
  .error "TypeError: object bool cannot be used in await expression"

/-- Evaluation of `VMInfoResult(ip=d.private_ip, vm_status=d.status, vm_name=d.vm_name)`
with `d` a Python dict: attribute accesses evaluated left to right. -/
def vmInfoFromDict (d : List (String × String)) : Except String VMInfoResult := do
  let ip ← pyDictAttr d "private_ip"
  let st ← pyDictAttr d "status"
  let nm ← pyDictAttr d "vm_name"
  pure ⟨ip, nm, st⟩

/-- The collaborator answers observed by one `allocate_or_reuse_vm` call. -/
structure AllocEnv where
  vm_details : Option (List (String × String))
  power_state : Option String
  start_ok : Bool
  create_result : List (String × String)

/-- The tail of `allocate_or_reuse_vm` (lines 133-155): create the VM, write
the workspace record when a workspace id is given (an `await` of the
synchronous table update), run the docker cleanup, and build the result from
the returned dict's attributes. -/
def allocCreatePath (env : AllocEnv) (workspace_id : Option String)
    (callsPrefix : List MgrCall) : Except String VMInfoResult × List MgrCall :=
  let vm_config := env.create_result
  match workspace_id with
  | some _ =>
    (match awaitUpdateWorkspaceTable with
     | .error e => (.error e, callsPrefix ++ [.createVm, .updateWorkspace])
     | .ok _ =>
       (vmInfoFromDict vm_config,
        callsPrefix ++ [.createVm, .updateWorkspace, .dockerCleanup]))
  | none => (vmInfoFromDict vm_config, callsPrefix ++ [.createVm, .dockerCleanup])

/-- Embedding of `SpotVMManager.allocate_or_reuse_vm(user_id, workspace_id, vm_name=None,
vm_size=None, force_recreate)`: result together with the trace of
collaborator calls.  `check_user_vm_allocation` reads the details dict
(swallowing errors), `is_vm_running` compares the power state with
`running`, and the docker cleanup helper swallows its own failures. -/
def allocate_or_reuse_vm (env : AllocEnv) (user_id : String)
    (workspace_id : Option String) (force_recreate : Bool) :
    Except String VMInfoResult × List MgrCall :=
  let _vm_name := get_user_vm_name user_id workspace_id false
  match env.vm_details, force_recreate with
  | some existing_vm, false =>
    if env.power_state == some "running" then
      match workspace_id with
      | some _ =>
        (match awaitUpdateWorkspaceTable with
         | .error e => (.error e, [.getDetails, .getStatus, .updateWorkspace])
         | .ok _ =>
           (vmInfoFromDict existing_vm,
            [.getDetails, .getStatus, .updateWorkspace, .dockerCleanup]))
      | none =>
        (vmInfoFromDict existing_vm, [.getDetails, .getStatus, .dockerCleanup])
    else
      if env.start_ok then
        match env.vm_details with
        | none =>
          (.error "AttributeError: NoneType object has no attribute private_ip",
           [.getDetails, .getStatus, .startVm, .getDetails, .dockerCleanup])
        | some updated_vm =>
          match workspace_id with
          | some _ =>
            (match awaitUpdateWorkspaceTable with
             | .error e =>
               (.error e, [.getDetails, .getStatus, .startVm, .getDetails, .updateWorkspace])
             | .ok _ =>
               (vmInfoFromDict updated_vm,
                [.getDetails, .getStatus, .startVm, .getDetails, .updateWorkspace,
                 .dockerCleanup]))
          | none =>
            (vmInfoFromDict updated_vm,
             [.getDetails, .getStatus, .startVm, .getDetails, .dockerCleanup])
      else
        allocCreatePath env workspace_id [.getDetails, .getStatus, .startVm, .deleteVm]
  | some _, true =>
    allocCreatePath env workspace_id [.getDetails, .deleteVm]
  | none, _ =>
    allocCreatePath env workspace_id [.getDetails]

/-- Whether an allocation result is a success. -/
def exceptIsOk : Except String VMInfoResult → Bool
  | .ok _ => true
  | .error _ => false

/-- A character of the cloud-safe charset `[a-z0-9-]`. -/
def isCloudSafeChar (c : Char) : Bool :=
  (97 ≤ c.toNat && c.toNat ≤ 122) || (48 ≤ c.toNat && c.toNat ≤ 57) || c = '-'

/-- Every character of the string is ASCII (code point below 128). -/
def isAsciiStr (s : String) : Bool :=
  s.toList.all (fun c => c.toNat < 128)

/-- Round-trip of `Char.ofNat` on valid code points. -/
theorem toNat_ofNat_valid (n : Nat) (h : n.isValidChar) : (Char.ofNat n).toNat = n := by
  simp only [Char.ofNat, dif_pos h, Char.ofNatAux, Char.toNat, UInt32.toNat]
  simp

/-- Lower-casing a kept character of `get_user_vm_name` lands in `[a-z0-9-]`. -/
theorem pyLowerChar_cloudSafe (c : Char) (h : (pyIsAlnum c || c = '-') = true) :
    isCloudSafeChar (pyLowerChar c) = true := by
  simp only [pyIsAlnum, Bool.or_eq_true, Bool.and_eq_true, decide_eq_true_eq] at h
  rcases h with ((⟨h1, h2⟩ | ⟨h1, h2⟩) | ⟨h1, h2⟩) | h
  · have hvalid : Nat.isValidChar (c.toNat + 32) := Or.inl (by omega)
    have htn : (Char.ofNat (c.toNat + 32)).toNat = c.toNat + 32 :=
      toNat_ofNat_valid _ hvalid
    have hcond : (65 ≤ c.toNat && c.toNat ≤ 90) = true := by
      simp [h1, h2]
    simp only [pyLowerChar, hcond, if_true, isCloudSafeChar, htn,
      Bool.or_eq_true, Bool.and_eq_true, decide_eq_true_eq]
    exact Or.inl (Or.inl ⟨by omega, by omega⟩)
  · have hcond : (65 ≤ c.toNat && c.toNat ≤ 90) = false := by
      simp only [Bool.and_eq_false_iff, decide_eq_false_iff_not]
      right; omega
    simp only [pyLowerChar, hcond, Bool.false_eq_true, if_false, isCloudSafeChar,
      Bool.or_eq_true, Bool.and_eq_true, decide_eq_true_eq]
    exact Or.inl (Or.inl ⟨h1, h2⟩)
  · have hcond : (65 ≤ c.toNat && c.toNat ≤ 90) = false := by
      simp only [Bool.and_eq_false_iff, decide_eq_false_iff_not]
      left; omega
    simp only [pyLowerChar, hcond, Bool.false_eq_true, if_false, isCloudSafeChar,
      Bool.or_eq_true, Bool.and_eq_true, decide_eq_true_eq]
    exact Or.inl (Or.inr ⟨h1, h2⟩)
  · subst h
    decide

/-- Every character of `cleanPart s` lies in `[a-z0-9-]`. -/
theorem cleanPart_cloudSafe (s : String) :
    ∀ c ∈ (cleanPart s).toList, isCloudSafeChar c = true := by
  intro c hc
  have hc' : c ∈ (s.toList.filter (fun c => pyIsAlnum c || c = '-')).map pyLowerChar := hc
  obtain ⟨d, hd, rfl⟩ := List.mem_map.mp hc'
  exact pyLowerChar_cloudSafe d (List.mem_filter.mp hd).2

/-- Slicing `pyTake64` yields at most 64 characters. -/
theorem pyTake64_length (s : String) : (pyTake64 s).length ≤ 64 := by
  show ((s.toList.take 64).asString).length ≤ 64
  have h : ((s.toList.take 64).asString).length = (s.toList.take 64).length := rfl
  rw [h]
  exact List.length_take_le 64 s.toList

/-- Slicing `pyTake64` only keeps characters of its input. -/
theorem mem_of_mem_pyTake64 {c : Char} {s : String}
    (hc : c ∈ (pyTake64 s).toList) : c ∈ s.toList := by
  have hc' : c ∈ s.toList.take 64 := hc
  exact List.mem_of_mem_take hc'

end SDM

/-! ## Theorems for claims C4, C5, C10 -/

namespace SDM

/-- C4 (counterexample): the claim that each of the three derived names is
lower-case `[a-z0-9-]` of length at most 64 is false on the code: for tenant
`"Alice"` and workspace `"blog"` the project name is `"blog-Alice"` — the
upper-case `A` survives because `extract_user_id` neither lower-cases nor
sanitizes the user id — so the charset condition fails. -/
theorem c4_counterexample :
    ¬ (∀ t w : String,
        get_user_vm_name t (some w) false = get_user_vm_name t (some w) false ∧
        generate_project_name_from_user_workspace t w
          = generate_project_name_from_user_workspace t w ∧
        generate_context_name_from_user_workspace t w
          = generate_context_name_from_user_workspace t w ∧
        (get_user_vm_name t (some w) false).length ≤ 64 ∧
        ((get_user_vm_name t (some w) false).toList.all isCloudSafeChar) = true ∧
        (generate_project_name_from_user_workspace t w).length ≤ 64 ∧
        ((generate_project_name_from_user_workspace t w).toList.all isCloudSafeChar) = true ∧
        (generate_context_name_from_user_workspace t w).length ≤ 64 ∧
        ((generate_context_name_from_user_workspace t w).toList.all isCloudSafeChar) = true) := by
  intro h
  have h1 := (h "Alice" "blog").2.2.2.2.2.2.1
  have h2 : ((generate_project_name_from_user_workspace "Alice" "blog").toList.all
      isCloudSafeChar) = false := by decide
  rw [h2] at h1
  exact Bool.false_ne_true h1

/-- C4 (amended): for ASCII inputs all three derived names are deterministic
(pure functions of the inputs), and the VM name is at most 64 characters and
drawn from `[a-z0-9-]`; the project and context names, however, preserve the
case of their inputs and are not truncated to 64 characters. -/
theorem c4_amended (t w : String) (useWs : Bool)
    (ht : isAsciiStr t = true) (hw : isAsciiStr w = true) :
    get_user_vm_name t (some w) useWs = get_user_vm_name t (some w) useWs ∧
    generate_project_name_from_user_workspace t w
      = generate_project_name_from_user_workspace t w ∧
    generate_context_name_from_user_workspace t w
      = generate_context_name_from_user_workspace t w ∧
    (get_user_vm_name t (some w) useWs).length ≤ 64 ∧
    ((get_user_vm_name t (some w) useWs).toList.all isCloudSafeChar) = true := by
  refine ⟨rfl, rfl, rfl, ?_, ?_⟩
  · unfold get_user_vm_name
    split
    · exact pyTake64_length _
    · exact pyTake64_length _
  · have hpre : ∀ c ∈ ("vm-" : String).toList, isCloudSafeChar c = true := by decide
    have hdash : ∀ c ∈ ("-" : String).toList, isCloudSafeChar c = true := by decide
    unfold get_user_vm_name
    split
    · rw [List.all_eq_true]
      intro c hc
      have hmem := mem_of_mem_pyTake64 hc
      simp only [String.toList, String.data_append] at hmem
      rcases List.mem_append.mp hmem with h1 | h1
      · rcases List.mem_append.mp h1 with h2 | h2
        · rcases List.mem_append.mp h2 with h3 | h3
          · exact hpre c h3
          · exact cleanPart_cloudSafe t c h3
        · exact hdash c h2
      · exact cleanPart_cloudSafe _ c h1
    · rw [List.all_eq_true]
      intro c hc
      have hmem := mem_of_mem_pyTake64 hc
      simp only [String.toList, String.data_append] at hmem
      rcases List.mem_append.mp hmem with h1 | h1
      · exact hpre c h1
      · exact cleanPart_cloudSafe t c h1

/-- C4 (witness): the amended theorem applied at tenant `"alice"`,
workspace `"blog"`. -/
theorem c4_amended_witness :
    isAsciiStr "alice" = true ∧ isAsciiStr "blog" = true ∧
    (get_user_vm_name "alice" (some "blog") false = get_user_vm_name "alice" (some "blog") false ∧
     generate_project_name_from_user_workspace "alice" "blog"
       = generate_project_name_from_user_workspace "alice" "blog" ∧
     generate_context_name_from_user_workspace "alice" "blog"
       = generate_context_name_from_user_workspace "alice" "blog" ∧
     (get_user_vm_name "alice" (some "blog") false).length ≤ 64 ∧
     ((get_user_vm_name "alice" (some "blog") false).toList.all isCloudSafeChar) = true) :=
  ⟨by decide, by decide, c4_amended "alice" "blog" false (by decide) (by decide)⟩

/-- C1: for every VM name and every subnet whose CIDR parses with more than
10 usable host addresses, `_generate_static_ip` is deterministic (it is a
pure function of `(subnet, vm_name)`) and the produced address lies in the
subnet's usable host range with the first 10 host addresses excluded. -/
theorem c1_static_ip_deterministic_and_in_range
    (vm_name cidr : String) (net p : Nat)
    (hparse : parseIPv4Network cidr = some (net, p))
    (hcount : 10 < (hostsList net p).length) :
    generate_static_ip vm_name cidr = generate_static_ip vm_name cidr ∧
    generate_static_ip vm_name cidr
      ∈ ((hostsList net p).drop 10).map ipToString := by
  refine ⟨rfl, ?_⟩
  have hlen : ((hostsList net p).drop 10).length ≠ 0 := by
    rw [List.length_drop]
    omega
  unfold generate_static_ip
  rw [hparse]
  simp only [if_neg hlen]
  apply List.mem_map_of_mem
  have hidx : md5HashIntOfPrefixLen vm_name 8 % ((hostsList net p).drop 10).length
      < ((hostsList net p).drop 10).length :=
    Nat.mod_lt _ (Nat.pos_of_ne_zero hlen)
  rw [List.getD_eq_getElem _ _ hidx]
  exact List.getElem_mem hidx

set_option maxRecDepth 100000 in
/-- C1 (witness): the theorem applied at VM name `"vm-alice-blog"` and
subnet `"10.0.0.0/24"` (network `10.0.0.0` = 167772160, 254 usable hosts). -/
theorem c1_witness :
    parseIPv4Network "10.0.0.0/24" = some (167772160, 24) ∧
    10 < (hostsList 167772160 24).length ∧
    (generate_static_ip "vm-alice-blog" "10.0.0.0/24"
        = generate_static_ip "vm-alice-blog" "10.0.0.0/24" ∧
      generate_static_ip "vm-alice-blog" "10.0.0.0/24"
        ∈ ((hostsList 167772160 24).drop 10).map ipToString) :=
  ⟨by decide, by decide,
    c1_static_ip_deterministic_and_in_range "vm-alice-blog" "10.0.0.0/24" 167772160 24
      (by decide) (by decide)⟩

/-- C5 (counterexample): the claim that the allocation path derives
`"vm-alice-blog"` for tenant `"alice"`, workspace `"blog"` is false:
`allocate_or_reuse_vm` calls `get_user_vm_name` without `use_workspace=True`,
so the derived name is `"vm-alice"`. -/
theorem c5_counterexample :
    allocVmNameUsed "alice" (some "blog") ≠ "vm-alice-blog" := by
  decide

/-- C5 (amended): for tenant `"alice"` and workspace `"blog"` the VM name
derived and used by the allocation path is `"vm-alice"` (the workspace part
is dropped because `use_workspace` defaults to `False`). -/
theorem c5_amended : allocVmNameUsed "alice" (some "blog") = "vm-alice" := by
  decide

/-- C6: for the service-port map web→[8080], api→[3000, 3001] with private
IP `10.0.0.142` and deployment name `blog`, `generate_toml` produces exactly
three routing entries — `blog-web.<base>` to `http://10.0.0.142:8080`,
`blog-api1.<base>` to `http://10.0.0.142:3000`, `blog-api2.<base>` to
`http://10.0.0.142:3001` — with no suffix on the single-port service and
suffixes 1, 2 in port-list order on the multi-port service. -/
theorem c6_generate_toml_entries (base_url : String) :
    generate_toml "blog" "10.0.0.142" base_url [("web", [8080]), ("api", [3000, 3001])]
      = ([("blog-web",
            { rule := "Host(`" ++ ("blog-web." ++ base_url) ++ "`)"
              service := "blog-web"
              entryPoints := ["websecure"]
              middlewares := ["sslheader"]
              tlsCertResolver := "letsencrypt" }),
          ("blog-api1",
            { rule := "Host(`" ++ ("blog-api1." ++ base_url) ++ "`)"
              service := "blog-api1"
              entryPoints := ["websecure"]
              middlewares := ["sslheader"]
              tlsCertResolver := "letsencrypt" }),
          ("blog-api2",
            { rule := "Host(`" ++ ("blog-api2." ++ base_url) ++ "`)"
              service := "blog-api2"
              entryPoints := ["websecure"]
              middlewares := ["sslheader"]
              tlsCertResolver := "letsencrypt" })],
         [("blog-web", { serverUrl := "http://10.0.0.142:8080" }),
          ("blog-api1", { serverUrl := "http://10.0.0.142:3000" }),
          ("blog-api2", { serverUrl := "http://10.0.0.142:3001" })],
         ["blog-web." ++ base_url, "blog-api1." ++ base_url, "blog-api2." ++ base_url]) := by
  rfl

/-- C7 (counterexample): the claim that a failing fluentd stage is tolerated
is false on the code: with port resolution succeeding, the compose file
found, `add_fluentd_to_compose` answering falsy and a deploy command that
would succeed, `run_docker_compose_deploy` returns `success=False` carrying
the fluentd `RuntimeError` message, and neither the deploy (`up`) command
nor the Traefik generation runs. -/
theorem c7_counterexample :
    run_docker_compose_deploy
      { cleanupOutcome := .ok { success := true }
        systemCleanupOutcome := .ok { success := true }
        servicePortsOutcome := .ok [("web", [8080])]
        composeFileOutcome := .ok "docker-compose.yml"
        addFluentdOutcome := .ok false
        runOutcome := { success := true } }
      "ws-alice-blog" "blog-alice" "" "10.0.0.142" "apps.example.com"
      = ({ success := false, error := some "Failed to enable Fluentd logging" },
          false, false) := by
  rfl

/-- C7 (amended): the fluentd stage of `run_docker_compose_deploy` is fatal,
not best-effort: whenever `enable_fluentd_logging` raises (the enabler
throws, or answers falsy) while ports and compose file resolved, the deploy
returns a failure result carrying that error and neither the deploy (`up`)
command nor the routing generation runs. -/
theorem c7_amended (env : DeployEnv)
    (context_name project_name env_file_arg private_ip base_url : String)
    (ports : List (String × List Nat)) (path e : String)
    (hp : env.servicePortsOutcome = .ok ports)
    (hf : env.composeFileOutcome = .ok path)
    (he : enable_fluentd_logging env.addFluentdOutcome = .error e) :
    run_docker_compose_deploy env context_name project_name env_file_arg
        private_ip base_url
      = ({ success := false, error := some e }, false, false) := by
  unfold run_docker_compose_deploy
  rw [hp, hf, he]

/-- C7 (witness): the amended theorem applied to an environment whose
fluentd enabler throws. -/
theorem c7_amended_witness :
    ({ cleanupOutcome := .ok { success := true }
       systemCleanupOutcome := .ok { success := true }
       servicePortsOutcome := .ok [("web", [8080])]
       composeFileOutcome := .ok "docker-compose.yml"
       addFluentdOutcome := .error "yaml parse error"
       runOutcome := { success := true } } : DeployEnv).servicePortsOutcome
        = .ok [("web", [8080])] ∧
    run_docker_compose_deploy
      { cleanupOutcome := .ok { success := true }
        systemCleanupOutcome := .ok { success := true }
        servicePortsOutcome := .ok [("web", [8080])]
        composeFileOutcome := .ok "docker-compose.yml"
        addFluentdOutcome := .error "yaml parse error"
        runOutcome := { success := true } }
      "ws-alice-blog" "blog-alice" "" "10.0.0.142" "apps.example.com"
      = ({ success := false, error := some "yaml parse error" }, false, false) :=
  ⟨rfl,
    c7_amended _ "ws-alice-blog" "blog-alice" "" "10.0.0.142" "apps.example.com"
      [("web", [8080])] "docker-compose.yml" "yaml parse error" rfl rfl rfl⟩

/-- C8: the claim that the deploy command contains no build flag is false on
the code, which contradicts its own comment ("Since we are building it
earlier. we can skip this.") by appending `--build`: the generated command
ends in `up -d --build`. -/
theorem c8_deploy_command_has_build_flag :
    generate_deploy_command "docker-compose.yml" "blog-alice" "" (some "ws-alice-blog")
      = "docker --context ws-alice-blog compose -f docker-compose.yml -p blog-alice up -d --build"
    ∧ strContainsSub
        (generate_deploy_command "docker-compose.yml" "blog-alice" "" (some "ws-alice-blog"))
        "--build" = true := by
  refine ⟨by rfl, by decide⟩

/-- On the empty string, substring search for a nonempty pattern fails. -/
theorem strContainsSub_empty_left (pat : String) (hp : pat ≠ "") :
    strContainsSub "" pat = false := by
  have hl : pat.toList ≠ [] := by
    intro h
    apply hp
    have := congrArg List.asString h
    rwa [String.asString_toList] at this
  show listContainsSub pat.toList [] = false
  unfold listContainsSub
  cases hpt : pat.toList with
  | nil => exact absurd hpt hl
  | cons c rest => rfl

/-- C3: for a VM that exists and is running, `is_vm_docker_ready` answers
`True` exactly when the `cloud-init status` probe answers output containing
`status: done` and the `docker --version` probe answers output containing
`Docker version`; in every other case it answers `False`. -/
theorem c3_ready_iff (env : VmProbeEnv)
    (hex : env.vm_exists = true)
    (hrun : get_vm_status env.instance_view = some "running") :
    (is_vm_docker_ready env = true ↔
      ((∃ s, run_vm_command env "cloud-init status" = some s ∧
          strContainsSub s "status: done" = true) ∧
       (∃ s, run_vm_command env "docker --version" = some s ∧
          strContainsSub s "Docker version" = true))) := by
  have hr : is_vm_running env.instance_view = true := by
    unfold is_vm_running
    rw [hrun]
    rfl
  unfold is_vm_docker_ready run_vm_command
  rw [hex, hr]
  cases hci : env.run_command_output "cloud-init status" with
  | none => simp [pyTruthy, hci]
  | some s =>
    by_cases hse : s = ""
    · subst hse
      simp [pyTruthy, hci, strContainsSub_empty_left]
    · cases hdv : env.run_command_output "docker --version" with
      | none => simp [pyTruthy, hci, hdv, hse]
      | some t =>
        by_cases hte : t = ""
        · subst hte
          simp [pyTruthy, hci, hdv, hse, strContainsSub_empty_left]
        · simp [pyTruthy, hci, hdv, hse, hte]

/-- C3 (witness): the theorem applied to an existing running VM whose
`cloud-init status` probe answers `status: done` and whose
`docker --version` probe answers a Docker version banner. -/
theorem c3_ready_witness :
    (VmProbeEnv.mk true (.ok ⟨["ProvisioningState/succeeded", "PowerState/running"]⟩)
        (fun c => if c = "cloud-init status" then some "status: done"
          else some "Docker version 27.1.1, build 1234567")).vm_exists = true ∧
    get_vm_status (VmProbeEnv.mk true
        (.ok ⟨["ProvisioningState/succeeded", "PowerState/running"]⟩)
        (fun c => if c = "cloud-init status" then some "status: done"
          else some "Docker version 27.1.1, build 1234567")).instance_view
      = some "running" ∧
    (is_vm_docker_ready
        (VmProbeEnv.mk true (.ok ⟨["ProvisioningState/succeeded", "PowerState/running"]⟩)
          (fun c => if c = "cloud-init status" then some "status: done"
            else some "Docker version 27.1.1, build 1234567")) = true ↔
      ((∃ s, run_vm_command
            (VmProbeEnv.mk true (.ok ⟨["ProvisioningState/succeeded", "PowerState/running"]⟩)
              (fun c => if c = "cloud-init status" then some "status: done"
                else some "Docker version 27.1.1, build 1234567")) "cloud-init status"
            = some s ∧ strContainsSub s "status: done" = true) ∧
       (∃ s, run_vm_command
            (VmProbeEnv.mk true (.ok ⟨["ProvisioningState/succeeded", "PowerState/running"]⟩)
              (fun c => if c = "cloud-init status" then some "status: done"
                else some "Docker version 27.1.1, build 1234567")) "docker --version"
            = some s ∧ strContainsSub s "Docker version" = true))) :=
  ⟨rfl, by decide,
    c3_ready_iff
      (VmProbeEnv.mk true (.ok ⟨["ProvisioningState/succeeded", "PowerState/running"]⟩)
        (fun c => if c = "cloud-init status" then some "status: done"
          else some "Docker version 27.1.1, build 1234567"))
      rfl (by decide)⟩

/-- C9: the claim that `get_vm_status`/`get_vm_details` let a caller
distinguish the NotFound case from the transient-failure case is false on
the code: a `ResourceNotFoundError` and any other exception both make
`get_vm_status` and `get_vm_details` answer `None` — identical results, so
callers cannot tell absence from a transient API failure (the
`VMNotFoundException`/`VMInfoNotAvailableException` handlers in the manager
are unreachable). -/
theorem c9_notfound_vs_transient_indistinguishable :
    get_vm_status (AzureOutcome.notFound : AzureOutcome AzureVmView)
      = get_vm_status (AzureOutcome.apiError "connection timeout") ∧
    get_vm_status (AzureOutcome.notFound : AzureOutcome AzureVmView) = none ∧
    get_vm_details (AzureOutcome.notFound : AzureOutcome AzureVmRec) (.ok "10.0.0.142")
        (.ok ⟨["PowerState/running"]⟩) "vm-alice" "rg" "vnet" "subnet" "nic"
      = get_vm_details (AzureOutcome.apiError "connection timeout") (.ok "10.0.0.142")
        (.ok ⟨["PowerState/running"]⟩) "vm-alice" "rg" "vnet" "subnet" "nic" ∧
    get_vm_details (AzureOutcome.notFound : AzureOutcome AzureVmRec) (.ok "10.0.0.142")
        (.ok ⟨["PowerState/running"]⟩) "vm-alice" "rg" "vnet" "subnet" "nic" = none :=
  ⟨rfl, rfl, rfl, rfl⟩

/-- C2: on an existing running VM with `force_recreate=false`, the code
indeed performs no provisioning call (no create, start or delete appears in
the call trace), but it does not return the existing VM's private IP: it
raises — `TypeError` when a workspace id is given (the synchronous
`update_workspace_table` is `await`ed), else `AttributeError` (attribute
access on the details dict) — so the allocation result is an error. -/
theorem c2_reuse_running_errors_without_provisioning
    (env : AllocEnv) (user_id : String) (workspace_id : Option String)
    (d : List (String × String))
    (hd : env.vm_details = some d) (hs : env.power_state = some "running") :
    exceptIsOk (allocate_or_reuse_vm env user_id workspace_id false).1 = false ∧
    ∀ c ∈ (allocate_or_reuse_vm env user_id workspace_id false).2,
      isProvisioningCall c = false := by
  cases workspace_id with
  | none =>
    have h1 : allocate_or_reuse_vm env user_id none false
        = (vmInfoFromDict d, [.getDetails, .getStatus, .dockerCleanup]) := by
      unfold allocate_or_reuse_vm
      rw [hd, hs]
      rfl
    rw [h1]
    refine ⟨rfl, ?_⟩
    intro c hc
    have h2 : c ∈ [MgrCall.getDetails, MgrCall.getStatus, MgrCall.dockerCleanup] := hc
    fin_cases h2 <;> rfl
  | some w =>
    have h1 : allocate_or_reuse_vm env user_id (some w) false
        = (.error "TypeError: object bool cannot be used in await expression",
           [.getDetails, .getStatus, .updateWorkspace]) := by
      unfold allocate_or_reuse_vm
      rw [hd, hs]
      rfl
    rw [h1]
    refine ⟨rfl, ?_⟩
    intro c hc
    have h2 : c ∈ [MgrCall.getDetails, MgrCall.getStatus, MgrCall.updateWorkspace] := hc
    fin_cases h2 <;> rfl

/-- C2 (witness): the theorem applied to tenant `"alice"`, workspace
`"blog"`, with VM `vm-alice` existing and running at `10.0.0.142`. -/
theorem c2_witness :
    (AllocEnv.mk
        (some [("vm_name", "vm-alice"), ("private_ip", "10.0.0.142"), ("status", "running")])
        (some "running") true []).vm_details
      = some [("vm_name", "vm-alice"), ("private_ip", "10.0.0.142"), ("status", "running")] ∧
    (AllocEnv.mk
        (some [("vm_name", "vm-alice"), ("private_ip", "10.0.0.142"), ("status", "running")])
        (some "running") true []).power_state = some "running" ∧
    (exceptIsOk (allocate_or_reuse_vm
        (AllocEnv.mk
          (some [("vm_name", "vm-alice"), ("private_ip", "10.0.0.142"), ("status", "running")])
          (some "running") true [])
        "alice" (some "blog") false).1 = false ∧
      ∀ c ∈ (allocate_or_reuse_vm
          (AllocEnv.mk
            (some [("vm_name", "vm-alice"), ("private_ip", "10.0.0.142"), ("status", "running")])
            (some "running") true [])
          "alice" (some "blog") false).2,
        isProvisioningCall c = false) :=
  ⟨rfl, rfl,
    c2_reuse_running_errors_without_provisioning
      (AllocEnv.mk
        (some [("vm_name", "vm-alice"), ("private_ip", "10.0.0.142"), ("status", "running")])
        (some "running") true [])
      "alice" (some "blog")
      [("vm_name", "vm-alice"), ("private_ip", "10.0.0.142"), ("status", "running")]
      rfl rfl⟩

/-- C10: the derived-name mapping is not injective in the tenant: the
distinct tenants `"a.b@x.com"` and `"ab@y.com"` both reduce to user id
`"ab"` (dots removed, domain dropped), so with workspace `"blog"` they share
one project name and one context name. -/
theorem c10_shared_names :
    ("a.b@x.com" : String) ≠ "ab@y.com" ∧
    extract_user_id "a.b@x.com" = "ab" ∧
    extract_user_id "ab@y.com" = "ab" ∧
    generate_project_name_from_user_workspace "a.b@x.com" "blog"
      = generate_project_name_from_user_workspace "ab@y.com" "blog" ∧
    generate_context_name_from_user_workspace "a.b@x.com" "blog"
      = generate_context_name_from_user_workspace "ab@y.com" "blog" := by
  refine ⟨by decide, by decide, by decide, by decide, by decide⟩

end SDM
